import Mathlib

/-!
Verification of the HealthMonitor staged-extraction pipelines.

The Python source is shallowly embedded: texts are lists of Unicode code
points (`Str`), numeric values are rationals, fallible steps return
`Option`/`Except`.  Each definition mirrors one function of the repository;
the theorems at the end settle the specification claims.
-/

/-- Texts are modelled as lists of Unicode code points. -/
abbrev Str := List Nat

deriving instance DecidableEq for Except

/-- Code points of a Lean string literal. -/
def sN (s : String) : Str := s.data.map Char.toNat

namespace Py

/-- ASCII whitespace set recognised by Python `str.strip` / `str.split`
(space, tab, LF, CR, VT, FF; the claims only exercise these). -/
def isSpaceN (c : Nat) : Bool := c = 32 || c = 9 || c = 10 || c = 13 || c = 11 || c = 12

def isDigitN (c : Nat) : Bool := 48 ≤ c && c ≤ 57

/-- Word character for the regex `\b` boundary: `[A-Za-z0-9_]`. -/
def isWordN (c : Nat) : Bool :=
  (48 ≤ c && c ≤ 57) || (65 ≤ c && c ≤ 90) || (97 ≤ c && c ≤ 122) || c = 95

/-- Python `str.lower` on a code point (ASCII range; other points unchanged). -/
def lowerC (c : Nat) : Nat := if 65 ≤ c ∧ c ≤ 90 then c + 32 else c

/-- Python `str.upper` on a code point (ASCII range). -/
def upperC (c : Nat) : Nat := if 97 ≤ c ∧ c ≤ 122 then c - 32 else c

def lowerN (s : Str) : Str := s.map lowerC

/-- Python `str.strip()`. -/
def stripN (s : Str) : Str :=
  ((s.dropWhile isSpaceN).reverse.dropWhile isSpaceN).reverse

/-- Python `str.capitalize()`: first code point upper-cased, the rest lower-cased. -/
def capitalizeN : Str → Str
  | [] => []
  | c :: rest => upperC c :: rest.map lowerC

/-- Python `str.title()` restricted to its effect on letters: a letter is
upper-cased when the previous code point is not a letter, lower-cased
otherwise. -/
def isAlphaN (c : Nat) : Bool := (65 ≤ c && c ≤ 90) || (97 ≤ c && c ≤ 122)

def titleGo : Bool → Str → Str
  | _, [] => []
  | prevAlpha, c :: rest =>
    (if prevAlpha then lowerC c else upperC c) :: titleGo (isAlphaN c) rest

def titleN (s : Str) : Str := titleGo false s

/-- Boolean list-prefix test. -/
def prefixAt : Str → Str → Bool
  | [], _ => true
  | _ :: _, [] => false
  | a :: as, b :: bs => a == b && prefixAt as bs

/-- Python `str.find`: index of the first occurrence of `needle` in `hay`,
`none` for Python's `-1`. -/
def findN : Str → Str → Option Nat
  | hay, needle =>
    if prefixAt needle hay then some 0
    else
      match hay with
      | [] => none
      | _ :: t => (findN t needle).map (· + 1)

/-- Python `needle in hay`. -/
def containsN (hay needle : Str) : Bool := (findN hay needle).isSome

/-- Python slice `s[a:b]` for non-negative bounds (both ends clamped). -/
def sliceN (s : Str) (a b : Nat) : Str := (s.drop a).take (b - a)

/-- Python `str.split()` (split on whitespace runs, dropping empty parts). -/
def splitWsGo : Str → Str → List Str
  | acc, [] => if acc = [] then [] else [acc.reverse]
  | acc, c :: rest =>
    if isSpaceN c then
      if acc = [] then splitWsGo [] rest else acc.reverse :: splitWsGo [] rest
    else splitWsGo (c :: acc) rest

def splitWsN (s : Str) : List Str := splitWsGo [] s

/-- Split on every code point satisfying `p`, keeping empty parts
(Python `str.split(sep)` shape, used one separator at a time). -/
def splitOnPGo (p : Nat → Bool) : Str → Str → List Str
  | acc, [] => [acc.reverse]
  | acc, c :: rest =>
    if p c then acc.reverse :: splitOnPGo p [] rest else splitOnPGo p (c :: acc) rest

def splitOnP (p : Nat → Bool) (s : Str) : List Str := splitOnPGo p [] s

/-- `re.split(r"[\n,]+", s)`: split on runs of newline/comma.  Runs collapse,
so empty parts appear only at the ends; the callers strip and drop empties,
making the exact empty-part behaviour immaterial — we keep all parts. -/
def splitNlCommaRuns (s : Str) : List Str :=
  (splitOnP (fun c => c = 10 || c = 44) s).filter (· ≠ []) ++
    (if s = [] then [[]] else [])

/-- Python `str.splitlines` for the line boundaries exercised here
(`\n`, `\r`, `\r\n`). -/
def splitLinesGo : Str → Str → List Str
  | acc, [] => if acc = [] then [] else [acc.reverse]
  | acc, 13 :: 10 :: rest => acc.reverse :: splitLinesGo [] rest
  | acc, 13 :: rest => acc.reverse :: splitLinesGo [] rest
  | acc, 10 :: rest => acc.reverse :: splitLinesGo [] rest
  | acc, c :: rest => splitLinesGo (c :: acc) rest

def splitLinesN (s : Str) : List Str := splitLinesGo [] s

/-- Value of a run of decimal digits. -/
def digitsVal (s : Str) : Nat := s.foldl (fun a c => a * 10 + (c - 48)) 0

/-- Decimal digits of a natural number (recursion on a fuel bound). -/
def digitsRev : Nat → Nat → Str
  | 0, _ => []
  | fuel + 1, n => if n < 10 then [48 + n] else (48 + n % 10) :: digitsRev fuel (n / 10)

def natStrN (n : Nat) : Str := (digitsRev (n + 1) n).reverse

/-- Python `str(int)`. -/
def intStrN (i : Int) : Str :=
  if i < 0 then 45 :: natStrN (-i).toNat else natStrN i.toNat

/-- Two-digit zero-padded field (strftime `%H`, `%M`, `%d`, `%m`). -/
def pad2 (n : Nat) : Str := [48 + n / 10 % 10, 48 + n % 10]

/-- Four-digit year field (strftime `%Y` for the years exercised here). -/
def pad4 (n : Nat) : Str :=
  [48 + n / 1000 % 10, 48 + n / 100 % 10, 48 + n / 10 % 10, 48 + n % 10]

/-- Parse a digit run as a natural number, `none` if empty or non-digit. -/
def parseNatN (s : Str) : Option Nat :=
  if s ≠ [] && s.all isDigitN then some (digitsVal s) else none

/-- Python `float(tok)` for the decimal tokens produced by the amount
regexes: `digits` or `digits.digits`. -/
def parseFloatTok (s : Str) : Option ℚ :=
  match splitOnP (fun c => c = 46) s with
  | [ip] => (parseNatN ip).map (fun n => mkRat n 1)
  | [ip, fp] =>
    match parseNatN ip, parseNatN fp with
    | some n, some f => some (mkRat (n * 10 ^ fp.length + f) (10 ^ fp.length))
    | _, _ => none
  | _ => none

/-- Python `int(str)` (strip, optional sign, digits). -/
def parseIntLit (s : Str) : Option Int :=
  let t := stripN s
  match t with
  | 45 :: rest => (parseNatN rest).map (fun n => -(n : Int))
  | 43 :: rest => (parseNatN rest).map (fun n => (n : Int))
  | _ => (parseNatN t).map (fun n => (n : Int))

end Py

namespace Calendar

/-- Gregorian leap year. -/
def isLeap (y : Nat) : Bool := (y % 4 = 0 && y % 100 ≠ 0) || y % 400 = 0

def daysInMonth (y m : Nat) : Nat :=
  if m = 1 then 31 else if m = 2 then (if isLeap y then 29 else 28)
  else if m = 3 then 31 else if m = 4 then 30 else if m = 5 then 31
  else if m = 6 then 30 else if m = 7 then 31 else if m = 8 then 31
  else if m = 9 then 30 else if m = 10 then 31 else if m = 11 then 30
  else 31

def daysBeforeMonth (y m : Nat) : Nat :=
  (List.range (m - 1)).foldl (fun a i => a + daysInMonth y (i + 1)) 0

/-- Rata-die day number of a civil date (0001-01-01 is day 1). -/
def civilToDay (y m d : Nat) : Nat :=
  365 * (y - 1) + (y - 1) / 4 - (y - 1) / 100 + (y - 1) / 400 + daysBeforeMonth y m + d

/-- Is `(y, m, d)` a date `datetime` accepts? -/
def validDate (y m d : Nat) : Bool :=
  1 ≤ y && y ≤ 9999 && 1 ≤ m && m ≤ 12 && 1 ≤ d && d ≤ daysInMonth y m

/-- Civil date of a rata-die day number (Hinnant's `civil_from_days`,
shifted to the rata-die epoch). -/
def dayToCivil (rd : Nat) : Nat × Nat × Nat :=
  let z := rd + 305
  let era := z / 146097
  let doe := z % 146097
  let yoe := (doe - doe / 1460 + doe / 36524 - doe / 146096) / 365
  let y := yoe + era * 400
  let doy := doe - (365 * yoe + yoe / 4 - yoe / 100)
  let mp := (5 * doy + 2) / 153
  let d := doy - (153 * mp + 2) / 5 + 1
  let m := if mp < 10 then mp + 3 else mp - 9
  (if m ≤ 2 then y + 1 else y, m, d)

/-- Python `datetime.weekday()`: Monday = 0.  Day 1 (0001-01-01) was a Monday. -/
def pyWeekday (rd : Nat) : Nat := (rd + 6) % 7

/-- strftime `%Y-%m-%d`. -/
def dateISO (rd : Nat) : Str :=
  let c := dayToCivil rd
  Py.pad4 c.1 ++ [45] ++ Py.pad2 c.2.1 ++ [45] ++ Py.pad2 c.2.2

/-- strftime `%H:%M`. -/
def timeHM (h m : Nat) : Str := Py.pad2 h ++ [58] ++ Py.pad2 m

end Calendar

namespace HM

/-- `app/services/ocr.py`, `extract_text_from_input` for `input_type = "text"`.

The Python line is `return text.strip(), 0.95 if text else ("", 0.0)`.
Because the conditional expression binds tighter than the tuple, the first
component is always `text.strip()`, and the second component is the float
`0.95` when `text` is truthy but the *tuple* `("", 0.0)` when `text` is the
empty string.  The second component is therefore modelled as `Option ℚ`:
`some c` for a float confidence, `none` for the malformed tuple value
(which is not a float and is rejected wherever pydantic expects one). -/
def extract_text_from_input_text (text : Str) : Str × Option ℚ :=
  (Py.stripN text, if text ≠ [] then some (mkRat 95 100) else none)

/-! ### Amount-detection pipeline (`app/pipelines/amount_detection.py`,
amount helpers of `app/services/normalization.py`) -/

/-- Maximal leading run of decimal digits. -/
def takeDigits : Str → Str × Str
  | [] => ([], [])
  | c :: rest =>
    if Py.isDigitN c then
      let p := takeDigits rest
      (c :: p.1, p.2)
    else ([], c :: rest)

/-- `re.findall(r"\d+(?:\.\d+)?", s)`: leftmost, non-overlapping, greedy. -/
def amountTokGo : Nat → Str → List Str
  | 0, _ => []
  | _ + 1, [] => []
  | fuel + 1, c :: rest =>
    if Py.isDigitN c then
      let p := takeDigits (c :: rest)
      match p.2 with
      | 46 :: d2 :: r2 =>
        if Py.isDigitN d2 then
          let q := takeDigits (d2 :: r2)
          (p.1 ++ [46] ++ q.1) :: amountTokGo fuel q.2
        else p.1 :: amountTokGo fuel (46 :: d2 :: r2)
      | r1 => p.1 :: amountTokGo fuel r1
    else amountTokGo fuel rest

def extract_amount_tokens (s : Str) : List Str := amountTokGo (s.length + 1) s

/-- `detect_currency_hint` (8377 is the rupee sign, 36 the dollar sign). -/
def detect_currency_hint (raw : Str) : Option String :=
  let lo := Py.lowerN raw
  if Py.containsN lo (sN "inr") || Py.containsN lo (sN "rs") || Py.containsN lo [8377] then
    some "INR"
  else if Py.containsN lo (sN "usd") || Py.containsN lo [36] then some "USD"
  else none

structure LabeledAmount where
  type : String
  value : ℚ
  source : Str
deriving DecidableEq

/-- Decimal digits after the point of a non-integer rational (long division). -/
def fracDigits : Nat → Nat → Nat → Str
  | 0, _, _ => []
  | fuel + 1, r, d => if r = 0 then [] else (48 + r * 10 / d) :: fracDigits fuel (r * 10 % d) d

/-- Python `str(float)` for the values handled here: integers are impossible
on this path; non-integers are rendered as a plain decimal expansion
(Python's shortest-roundtrip repr agrees on the short terminating decimals
these pipelines parse). -/
def floatStrN (v : ℚ) : Str :=
  let sign : Str := if v.num < 0 then [45] else []
  let n := v.num.natAbs
  let d := v.den
  sign ++ Py.natStrN (n / d) ++ [46] ++
    (if n % d = 0 then [48] else fracDigits 30 (n % d) d)

/-- `str(int(value)) if float(value).is_integer() else str(value)`. -/
def pyFloatCanonical (v : ℚ) : Str :=
  if v.den = 1 then Py.intStrN v.num else floatStrN v

def classifyContexts : List (String × List Str) :=
  [("total_bill", [sN "total", sN "bill", sN "amount"]),
   ("paid", [sN "paid"]),
   ("due", [sN "due", sN "balance"]),
   ("discount", [sN "discount"])]

/-- The `for t, kws in contexts` loop: first table entry with a keyword in
the window wins; default `"unknown"`. -/
def chooseType (window : Str) : String :=
  match classifyContexts.find? (fun tk => tk.2.any (fun k => Py.containsN window k)) with
  | some tk => tk.1
  | none => "unknown"

/-- One iteration of the `classify_amounts` loop. -/
def labelOne (raw : Str) (value : ℚ) : LabeledAmount :=
  let sval := pyFloatCanonical value
  let window : Str :=
    match Py.findN raw sval with
    | some idx => Py.lowerN (Py.sliceN raw (idx - 20) (idx + 20))
    | none => []
  { type := chooseType window, value := value,
    source := sN "text window: " ++ [39] ++ Py.stripN window ++ [39] }

/-- `classify_amounts` of `app/services/normalization.py`. -/
def classify_amounts (raw : Str) (amounts : List ℚ) : List LabeledAmount :=
  amounts.map (labelOne raw)

structure AmountFinalR where
  currency : String
  amounts : List LabeledAmount
  status : String
deriving DecidableEq

/-- `run_amount_pipeline` (text input), projected to its step-4 payload. -/
def run_amount_pipeline (text : Str) : AmountFinalR :=
  let raw_text := (extract_text_from_input_text text).1
  let tokens := if raw_text ≠ [] then extract_amount_tokens raw_text else []
  let currency_hint := if raw_text ≠ [] then detect_currency_hint raw_text else none
  if tokens = [] then
    { currency := currency_hint.getD "INR", amounts := [], status := "no_amounts_found" }
  else
    let amounts := tokens.filterMap (fun t => Py.parseFloatTok (t.filter (· ≠ 44)))
    { currency := currency_hint.getD "INR",
      amounts := classify_amounts raw_text amounts, status := "ok" }

/-! ### Health-risk pipeline (`app/pipelines/health_risk.py` with the helpers
of `app/services/normalization.py`, and `app/pipelines/health_risk_pipeline.py`) -/

/-- A parsed JSON/key-value answer value. -/
inductive PyVal where
  | vStr (s : String)
  | vInt (n : Int)
  | vBool (b : Bool)
  | vNone
deriving DecidableEq

abbrev Answers := List (String × PyVal)

def getVal (answers : Answers) (k : String) : Option PyVal :=
  (answers.find? (fun p => p.1 = k)).map (·.2)

def pyTruthy : PyVal → Bool
  | .vStr s => s ≠ ""
  | .vInt n => n ≠ 0
  | .vBool b => b
  | .vNone => false

/-- Python `str()` of an answer value. -/
def pyStrOf : PyVal → Str
  | .vStr s => sN s
  | .vInt n => Py.intStrN n
  | .vBool true => sN "True"
  | .vBool false => sN "False"
  | .vNone => sN "None"

/-- Python `int()` of an answer value (`bool` is an `int` subclass;
non-numeric strings and `None` raise, modelled as `none`). -/
def pyIntCoerce : PyVal → Option Int
  | .vInt n => some n
  | .vBool b => some (if b then 1 else 0)
  | .vStr s => Py.parseIntLit (sN s)
  | .vNone => none

/-- `extract_health_factors` of `app/services/normalization.py`. -/
def extract_health_factors (answers : Answers) : List String :=
  let smoker := Py.lowerN (pyStrOf ((getVal answers "smoker").getD (.vStr "")))
  let f1 : List String :=
    if smoker = sN "true" || smoker = sN "yes" || smoker = sN "y" || smoker = sN "1" then
      ["smoking"] else []
  let exercise := Py.lowerN (pyStrOf ((getVal answers "exercise").getD (.vStr "")))
  let f2 : List String :=
    if exercise = sN "never" || exercise = sN "rarely" || exercise = sN "sedentary" then
      ["low exercise"] else []
  let diet := Py.lowerN (pyStrOf ((getVal answers "diet").getD (.vStr "")))
  let f3 : List String :=
    if Py.containsN diet (sN "sugar") || Py.containsN diet (sN "junk") ||
        Py.containsN diet (sN "fried") then ["poor diet"] else []
  let f4 : List String :=
    match (getVal answers "age").bind pyIntCoerce with
    | some a => if 45 ≤ a then ["age_over_45"] else []
    | none => []
  f1 ++ f2 ++ f3 ++ f4

/-- `score_risk` of `app/services/normalization.py` (weights table with
default 5, no base, no cap; thresholds 40/70). -/
def score_risk (factors : List String) : String × Nat × List String :=
  let score := factors.foldl
    (fun s f =>
      s + (if f = "smoking" then 30 else if f = "poor diet" then 20
           else if f = "low exercise" then 20 else if f = "age_over_45" then 10 else 5))
    0
  let level := if 70 ≤ score then "high" else if 40 ≤ score then "medium" else "low"
  (level, score, factors)

/-- `_extract_factors` of `app/pipelines/health_risk_pipeline.py`. -/
def _extract_factors (answers : Answers) : List String :=
  let f1 : List String :=
    if pyTruthy ((getVal answers "smoker").getD .vNone) then ["smoking"] else []
  let exercise := Py.lowerN (pyStrOf ((getVal answers "exercise").getD (.vStr "")))
  let f2 : List String :=
    if [sN "rarely", sN "never", sN "sedentary", sN "low"].any
        (fun w => Py.containsN exercise w) then ["low exercise"] else []
  let diet := Py.lowerN (pyStrOf ((getVal answers "diet").getD (.vStr "")))
  let f3 : List String :=
    if [sN "high sugar", sN "junk", sN "fried", sN "processed"].any
        (fun w => Py.containsN diet w) then ["poor diet"] else []
  let f4 : List String :=
    match getVal answers "age" with
    | some (.vInt n) => if 55 ≤ n then ["age 55+"] else []
    | some (.vBool _) => []
    | _ => []
  f1 ++ f2 ++ f3 ++ f4

structure RiskInfo where
  risk_level : String
  score : Nat
  rationale : List String
deriving DecidableEq

/-- `_compute_risk_score` of `app/pipelines/health_risk_pipeline.py`:
base 10, weights 35/20/20/15, capped at 100, thresholds 30/60. -/
def _compute_risk_score (factors : List String) : RiskInfo :=
  let base := factors.foldl
    (fun b f =>
      b + (if f = "smoking" then 35 else if f = "poor diet" then 20
           else if f = "low exercise" then 20 else if f = "age 55+" then 15 else 0))
    10
  let score := min base 100
  { risk_level := if score < 30 then "low" else if score < 60 then "moderate" else "high",
    score := score,
    rationale :=
      if factors = [] then ["no significant lifestyle risk factors identified"] else factors }

/-- The missing-field computation of `run_health_risk_pipeline`:
a field is missing when absent from the mapping or bound to `""` or `None`. -/
def missingFields (answers : Answers) : List String :=
  ["age", "smoker", "exercise", "diet"].filter fun f =>
    match getVal answers f with
    | Option.none => true
    | some v => v = .vStr "" || v = .vNone

structure HealthResp where
  status : String
  factors : List String
  risk_level : String
  score : Nat
deriving DecidableEq

/-- `run_health_risk_pipeline` of `app/pipelines/health_risk.py` from the
parsed answers on (steps after `parse_answers`), projected to the response
fields the claims mention.  The guardrail `len(missing) > len(REQUIRED_FIELDS) / 2`
is `missing.length > 2`. -/
def run_health_from_answers (answers : Answers) : HealthResp :=
  let missing := missingFields answers
  if 2 < missing.length then
    { status := "incomplete_profile", factors := [], risk_level := "unknown", score := 0 }
  else
    let fs := extract_health_factors answers
    let r := score_risk fs
    { status := "ok", factors := fs, risk_level := r.1, score := r.2.1 }

/-- `run_health_risk_pipeline` on a text input; `parse` abstracts
`parse_answers` (JSON plus key-value fallback), which is only reached on
non-empty extracted text.  The extraction confidence is never read by this
pipeline, so the malformed-tuple slot is irrelevant here. -/
def run_health_risk_pipeline (parse : Str → Answers) (text : Str) : HealthResp :=
  run_health_from_answers
    (if (extract_text_from_input_text text).1 ≠ [] then
      parse (extract_text_from_input_text text).1
    else [])

/-! ### Report pipeline, wired variant (`app/pipelines/report_simplifier.py`
with the report helpers of `app/services/normalization.py`) -/

/-- First match of `re.search(r"(\d+(?:\.\d+)?)", s)`. -/
def findNumberTok : Str → Option Str
  | [] => none
  | c :: rest =>
    if Py.isDigitN c then
      let p := takeDigits (c :: rest)
      match p.2 with
      | 46 :: d2 :: r2 =>
        if Py.isDigitN d2 then some (p.1 ++ [46] ++ (takeDigits (d2 :: r2)).1)
        else some p.1
      | _ => some p.1
    else findNumberTok rest

/-- The `(,\d+)*` tail of the WBC number pattern. -/
def commaGroups : Nat → Str → Str × Str
  | 0, rest => ([], rest)
  | fuel + 1, 44 :: d :: r =>
    if Py.isDigitN d then
      let p := takeDigits (d :: r)
      let q := commaGroups fuel p.2
      (44 :: (p.1 ++ q.1), q.2)
    else ([], 44 :: d :: r)
  | _ + 1, rest => ([], rest)

/-- First match of `re.search(r"(\d+(?:,\d+)*)", s)`. -/
def findCommaNumberTok : Str → Option Str
  | [] => none
  | c :: rest =>
    if Py.isDigitN c then
      let p := takeDigits (c :: rest)
      some (p.1 ++ (commaGroups p.2.length p.2).1)
    else findCommaNumberTok rest

structure TestN where
  name : String
  value : ℚ
  unit : String
  status : String
  ref_range : Option (ℚ × ℚ)
deriving DecidableEq

/-- `normalize_test_line` of `app/services/normalization.py`. -/
def normalize_test_line (line : Str) : Option TestN :=
  let ll := Py.lowerN line
  if Py.containsN ll (sN "hemoglobin") || Py.containsN ll (sN "hemglobin") then
    match (findNumberTok line).bind Py.parseFloatTok with
    | some v =>
      some { name := "Hemoglobin", value := v, unit := "g/dL",
             status := if v < 12 then "low" else if 15 < v then "high" else "normal",
             ref_range := some ((12 : ℚ), (15 : ℚ)) }
    | none => none
  else if Py.containsN ll (sN "wbc") then
    match (findCommaNumberTok line).bind (fun t => Py.parseFloatTok (t.filter (· ≠ 44))) with
    | some v =>
      some { name := "WBC", value := v, unit := "/uL",
             status := if v < 4000 then "low" else if 11000 < v then "high" else "normal",
             ref_range := some ((4000 : ℚ), (11000 : ℚ)) }
    | none => none
  else none

/-- `split_tests`: split on `[\n,]+` runs, strip, drop empties. -/
def split_tests (raw : Str) : List Str :=
  ((Py.splitNlCommaRuns raw).map Py.stripN).filter (· ≠ [])

/-- `build_patient_summary`. -/
def build_patient_summary (tests : List TestN) : String :=
  let bits := tests.filterMap fun t =>
    if t.status = "low" then some ("Low " ++ t.name)
    else if t.status = "high" then some ("High " ++ t.name)
    else none
  if bits = [] then "All available test values appear within the reference range provided."
  else String.intercalate ", " bits ++ "."

/-- `explanations_from_tests`. -/
def explanations_from_tests (tests : List TestN) : List String :=
  let exp := List.flatten <| tests.map fun t =>
    (if t.name = "Hemoglobin" && t.status = "low" then
      ["Low hemoglobin may relate to anemia or blood loss; discuss with your doctor."]
     else []) ++
    (if t.name = "WBC" && t.status = "high" then
      ["High white blood cell count can occur with infections or inflammation."]
     else [])
  if exp = [] then
    ["These explanations are general and not a diagnosis. Please consult your doctor for medical advice."]
  else exp

structure ReportResp where
  status : String
  tests : List TestN
  summary : String
  explanations : List String
deriving DecidableEq

/-- `run_report_pipeline` (text input), projected to the response fields the
claims mention. -/
def run_report_pipeline (text : Str) : ReportResp :=
  let raw_text := (extract_text_from_input_text text).1
  if raw_text = [] then
    { status := "unprocessed", tests := [], summary := "", explanations := [] }
  else
    let norm := (split_tests raw_text).filterMap normalize_test_line
    if norm = [] then
      { status := "unprocessed", tests := norm, summary := "", explanations := [] }
    else
      { status := "ok", tests := norm, summary := build_patient_summary norm,
        explanations := explanations_from_tests norm }

/-! ### Report pipeline, parallel variant (`app/pipelines/report_pipeline.py`) -/

def reportUnitTokens : List Str :=
  [sN "g/dl", sN "/ul", sN "mg/dl", sN "mmol/l", sN "percent", sN "%"]

/-- `_extract_tests`: a stripped non-empty line qualifies when it has a digit
and a recognised unit token. -/
def _extract_tests (text : Str) : List Str :=
  (Py.splitLinesN text).filterMap fun line =>
    let l := Py.stripN line
    if l = [] then none
    else if l.any Py.isDigitN && reportUnitTokens.any (fun u => Py.containsN (Py.lowerN l) u)
    then some l
    else none

/-- `_normalize_test_name` (argument already stripped by the caller). -/
def _normalize_test_name (name : Str) : Str :=
  let nm := Py.stripN (Py.lowerN name)
  if Py.containsN nm (sN "hemo") then sN "Hemoglobin"
  else if Py.containsN nm (sN "wbc") || Py.containsN nm (sN "white blood") then sN "WBC"
  else Py.titleN nm

/-- Leading `[A-Za-z\s]+` run (the `re.match` of `_parse_test_line`). -/
def takeNameRun (s : Str) : Str := s.takeWhile (fun c => Py.isAlphaN c || Py.isSpaceN c)

/-- Leftmost case-insensitive match of
`(g/dL|/uL|mg/dL|mmol/L|percent|%)`, alternatives in table order,
returning the matched substring in original case. -/
def unitSearch : Str → Option Str
  | [] => none
  | c :: rest =>
    match reportUnitTokens.find? (fun u => Py.prefixAt u (Py.lowerN (c :: rest))) with
    | some u => some ((c :: rest).take u.length)
    | none => unitSearch rest

/-- Leftmost case-insensitive match of `\((low|high|normal)\)`, lower-cased. -/
def statusSearch : Str → Option String
  | [] => none
  | c :: rest =>
    let lo := Py.lowerN (c :: rest)
    if Py.prefixAt (sN "(low)") lo then some "low"
    else if Py.prefixAt (sN "(high)") lo then some "high"
    else if Py.prefixAt (sN "(normal)") lo then some "normal"
    else statusSearch rest

/-- `REF_RANGES.get` on a lower-cased key. -/
def refRangesGet (k : Str) : Option (ℚ × ℚ) :=
  if k = sN "hemoglobin" then some ((12 : ℚ), (15 : ℚ))
  else if k = sN "wbc" then some ((4000 : ℚ), (11000 : ℚ))
  else none

structure TestP where
  name : Str
  value : ℚ
  unit : Str
  status : String
  ref_range : Option (ℚ × ℚ)
deriving DecidableEq

/-- `_parse_test_line`: `none` models the empty dict (skipped by the caller). -/
def _parse_test_line (line : Str) : Option TestP :=
  if takeNameRun line = [] then none
  else
    let normalized := _normalize_test_name (Py.stripN (takeNameRun line))
    match (findNumberTok line).bind Py.parseFloatTok with
    | none => none
    | some v =>
      some { name := normalized, value := v, unit := (unitSearch line).getD [],
             status := (statusSearch line).getD "unknown",
             ref_range := refRangesGet (Py.lowerN normalized) }

structure ReportPResp where
  status : String
  tests : List TestP
deriving DecidableEq

/-- `process_report_request`, projected to status and normalised tests. -/
def process_report_request (text : Str) : ReportPResp :=
  let tests_raw := _extract_tests text
  if tests_raw = [] then { status := "unprocessed", tests := [] }
  else
    let parsed := tests_raw.filterMap _parse_test_line
    if parsed = [] then { status := "unprocessed", tests := [] }
    else { status := "ok", tests := parsed }

/-! ### Appointment pipeline, wired variant (`app/pipelines/appointment.py`).

Step 1 and the empty-text guardrail are modelled exactly; steps 2–4
(normalisation delegates to the external `dateutil` parser) are abstracted
by a continuation reached only on non-empty extracted text. -/

/-- `run_appointment_pipeline` projected to `step4_final.status`.
`.error ()` models the pydantic `ValidationError` raised while building
`AppointmentRawText` when the confidence slot holds the malformed tuple. -/
def run_appointment_status (cont : Str → String) (text : Str) : Except Unit String :=
  let raw_text := (extract_text_from_input_text text).1
  match (extract_text_from_input_text text).2 with
  | none => .error ()
  | some _ => if raw_text = [] then .ok "needs_clarification" else .ok (cont raw_text)

/-! ### Appointment pipeline, parallel variant
(`app/pipelines/appointment_pipeline.py`) -/

def wordAt (full : Str) (i : Nat) : Bool :=
  match full.get? i with
  | some c => Py.isWordN c
  | none => false

/-- Regex `\b` at position `i` (between `i-1` and `i`). -/
def boundaryAt (full : Str) (i : Nat) : Bool :=
  (decide (0 < i) && wordAt full (i - 1)) != wordAt full i

/-- Candidate match lengths of `(am|pm)?` plus what was consumed so far,
in backtracking priority order. -/
def timeCandsAmPm (len : Nat) (s : Str) : List Nat :=
  (if Py.prefixAt (sN "am") s then [len + 2] else []) ++
    (if Py.prefixAt (sN "pm") s then [len + 2] else []) ++ [len]

/-- `\s*` (greedy) then `(am|pm)?`. -/
def timeCandsSpaces (len : Nat) (s : Str) : List Nat :=
  let k := (s.takeWhile Py.isSpaceN).length
  (List.range (k + 1)).reverse.flatMap fun j => timeCandsAmPm (len + j) (s.drop j)

/-- `(?::(\d{2}))?` (try present first) then the rest. -/
def timeCandsColon (len : Nat) (s : Str) : List Nat :=
  (match s with
   | 58 :: a :: b :: r =>
     if Py.isDigitN a && Py.isDigitN b then timeCandsSpaces (len + 3) r else []
   | _ => []) ++ timeCandsSpaces len s

/-- `\d{1,2}` (greedy) then the rest. -/
def timeCandsDigits (s : Str) : List Nat :=
  (match s with
   | a :: b :: r => if Py.isDigitN a && Py.isDigitN b then timeCandsColon 2 r else []
   | _ => []) ++
    (match s with
     | a :: r => if Py.isDigitN a then timeCandsColon 1 r else []
     | _ => [])

/-- Match of `\b(\d{1,2})(?::(\d{2}))?\s*(am|pm)?\b` anchored at `pos`:
the first candidate (in backtracking order) whose end also sits on a word
boundary. -/
def timeMatchAt (full : Str) (pos : Nat) : Option Nat :=
  if boundaryAt full pos then
    (timeCandsDigits (full.drop pos)).find? fun len => boundaryAt full (pos + len)
  else none

/-- `re.search` of the time pattern: leftmost matching position wins. -/
def timeSearch (full : Str) : Option Str :=
  (List.range (full.length + 1)).findSome? fun pos =>
    (timeMatchAt full pos).map fun len => Py.sliceN full pos (pos + len)

/-- Lengths a greedy `\d{lo,hi}` can take at the head of `s`,
longest first. -/
def digitRunLens (s : Str) (lo hi : Nat) : List Nat :=
  let run := (s.takeWhile Py.isDigitN).length
  (List.range (min hi run + 1)).reverse.filter fun l => lo ≤ l

/-- Candidate lengths of `(\d{1,2})[sep](\d{1,2})[sep](\d{2,4})` at the head
of `s`, in backtracking priority order. -/
def dateCands (s : Str) : List Nat :=
  (digitRunLens s 1 2).flatMap fun l1 =>
    match s.drop l1 with
    | sep :: r1 =>
      if sep = 47 || sep = 45 then
        (digitRunLens r1 1 2).flatMap fun l2 =>
          match r1.drop l2 with
          | sep2 :: r2 =>
            if sep2 = 47 || sep2 = 45 then
              (digitRunLens r2 2 4).map fun l3 => l1 + 1 + l2 + 1 + l3
            else []
          | [] => []
      else []
    | [] => []

def dateMatchAt (full : Str) (pos : Nat) : Option Nat :=
  if boundaryAt full pos then
    (dateCands (full.drop pos)).find? fun len => boundaryAt full (pos + len)
  else none

/-- `re.search(r"\b(\d{1,2})[sep](\d{1,2})[sep](\d{2,4})\b", s)`. -/
def dateSearch (full : Str) : Option Str :=
  (List.range (full.length + 1)).findSome? fun pos =>
    (dateMatchAt full pos).map fun len => Py.sliceN full pos (pos + len)

def apptDepartments : List Str :=
  [sN "dentist", sN "cardiology", sN "orthopedics", sN "dermatology", sN "ophthalmology"]

def weekdayNamesN : List Str :=
  [sN "monday", sN "tuesday", sN "wednesday", sN "thursday", sN "friday",
   sN "saturday", sN "sunday"]

structure ApptEntities where
  date_phrase : Option Str
  time_phrase : Option Str
  department : Option Str
deriving DecidableEq

/-- `_extract_entities`. -/
def _extract_entities (text : Str) : ApptEntities :=
  let tl := Py.lowerN text
  { department := apptDepartments.find? fun d => Py.containsN tl d,
    time_phrase := timeSearch tl,
    date_phrase :=
      if Py.containsN tl (sN "today") then some (sN "today")
      else if Py.containsN tl (sN "tomorrow") then some (sN "tomorrow")
      else
        match weekdayNamesN.find? (fun wd => Py.containsN tl (sN "next " ++ wd)) with
        | some wd => some (sN "next " ++ wd)
        | none => dateSearch tl }

/-- Anchored `re.match(r"(\d{1,2})[sep](\d{1,2})[sep](\d{2,4})", s)`,
returning `(day, month, year digits)`. -/
def dateAnchoredParse (s : Str) : Option (Nat × Nat × Str) :=
  (digitRunLens s 1 2).findSome? fun l1 =>
    match s.drop l1 with
    | sep :: r1 =>
      if sep = 47 || sep = 45 then
        (digitRunLens r1 1 2).findSome? fun l2 =>
          match r1.drop l2 with
          | sep2 :: r2 =>
            if sep2 = 47 || sep2 = 45 then
              let run3 := (r2.takeWhile Py.isDigitN).length
              if 2 ≤ run3 then
                some (Py.digitsVal (s.take l1), Py.digitsVal (r1.take l2), r2.take (min 4 run3))
              else none
            else none
          | [] => none
      else none
    | [] => none

/-- The `(target_wd - now.weekday() + 7) % 7` offset with the
`if days_ahead == 0: days_ahead = 7` adjustment. -/
def nextDelta (target nowDay : Nat) : Nat :=
  let days_ahead := (target + 7 - Calendar.pyWeekday nowDay) % 7
  if days_ahead = 0 then 7 else days_ahead

/-- The `date_value` computation of `_normalize_datetime` (lines 55–84).
`now` is the current day number in the fixed timezone.  `.error ()` models
the uncaught Python exceptions on this path (`list.index` `ValueError`,
`IndexError` on a bare `next`, out-of-range `datetime` components);
`.ok none` models the `return {}` fall-through. -/
def resolveDatePart (date_phrase : Str) (nowDay : Nat) : Except Unit (Option Nat) :=
  let text := Py.stripN (Py.lowerN date_phrase)
  if text = sN "today" then .ok (some nowDay)
  else if text = sN "tomorrow" then .ok (some (nowDay + 1))
  else if Py.prefixAt (sN "next ") text then
    match (Py.splitWsN text).get? 1 with
    | none => .error ()
    | some w =>
      match weekdayNamesN.indexOf? w with
      | none => .error ()
      | some target => .ok (some (nowDay + nextDelta target nowDay))
  else
    match dateAnchoredParse text with
    | some (d, m, ys) =>
      let y := Py.digitsVal (if ys.length = 2 then sN "20" ++ ys else ys)
      if Calendar.validDate y m d then .ok (some (Calendar.civilToDay y m d)) else .error ()
    | none => .ok none

/-- Anchored `re.match(r"(\d{1,2})(?::(\d{2}))?\s*(am|pm)?", s)`:
`(hour, minute, group 3)` where `some true` is `pm`, `some false` is `am`. -/
def timeAnchoredParse (s : Str) : Option (Nat × Nat × Option Bool) :=
  match s with
  | [] => none
  | a :: rest =>
    if Py.isDigitN a then
      let hl := min 2 ((a :: rest).takeWhile Py.isDigitN).length
      let hour := Py.digitsVal ((a :: rest).take hl)
      let r1 := (a :: rest).drop hl
      let p : Nat × Str :=
        match r1 with
        | 58 :: x :: y :: r =>
          if Py.isDigitN x && Py.isDigitN y then (Py.digitsVal [x, y], r) else (0, r1)
        | _ => (0, r1)
      let r3 := p.2.dropWhile Py.isSpaceN
      some (hour, p.1,
        if Py.prefixAt (sN "am") r3 then some false
        else if Py.prefixAt (sN "pm") r3 then some true
        else none)
    else none

/-- `_normalize_datetime`, producing the strftime date and time strings. -/
def _normalize_datetime (date_phrase time_phrase : Str) (nowDay : Nat) :
    Except Unit (Option (Str × Str)) :=
  if date_phrase = [] || time_phrase = [] then .ok none
  else
    match resolveDatePart date_phrase nowDay with
    | .error () => .error ()
    | .ok Option.none => .ok none
    | .ok (some day) =>
      match timeAnchoredParse (Py.stripN (Py.lowerN time_phrase)) with
      | none => .ok none
      | some (h, m, ampm) =>
        let hour :=
          match ampm with
          | some true => if h ≠ 12 then h + 12 else h
          | some false => if h = 12 then 0 else h
          | none => h
        if 23 < hour || 59 < m then .error ()
        else .ok (some (Calendar.dateISO day, Calendar.timeHM hour m))

structure ApptResp where
  status : String
  department : Option Str
  date : Option Str
  time : Option Str
deriving DecidableEq

/-- `process_appointment_request`, projected to status and appointment
fields (`department` is `entities["department"].capitalize()`). -/
def process_appointment_request (text : Str) (nowDay : Nat) : Except Unit ApptResp :=
  let entities := _extract_entities text
  let normalized : Except Unit (Option (Str × Str)) :=
    match entities.date_phrase, entities.time_phrase with
    | some dp, some tp => _normalize_datetime dp tp nowDay
    | _, _ => .ok none
  match normalized with
  | .error () => .error ()
  | .ok norm =>
    match entities.department, entities.date_phrase, entities.time_phrase, norm with
    | some dept, some _, some _, some dt =>
      .ok { status := "ok", department := some (Py.capitalizeN dept),
            date := some dt.1, time := some dt.2 }
    | _, _, _, _ =>
      .ok { status := "needs_clarification", department := none, date := none, time := none }

/-- The weight table of `_compute_risk_score`, written as a lookup
function (same branch structure as the Python `if`/`elif` chain). -/
def riskWeight (f : String) : Nat :=
  if f = "smoking" then 35 else if f = "poor diet" then 20
  else if f = "low exercise" then 20 else if f = "age 55+" then 15 else 0

/-- The weekday list of `_normalize_datetime`, indexed Monday = 0 as in
`datetime.weekday()`. -/
def wdName (w : Fin 7) : Str := weekdayNamesN.getD w.val []

end HM

/-! ### Claim-level auxiliary definitions -/

/-- Demo inputs shared by the claim theorems. -/
def amountDemoText : Str := sN "Total: Rs 5,000 Paid: Rs 2,000 Due: Rs 3,000"

def healthDemoAnswers : HM.Answers :=
  [("age", .vInt 60), ("smoker", .vBool true), ("exercise", .vStr "sedentary"),
   ("diet", .vStr "fried food")]

def reportDemoLine : Str := sN "Hemoglobin 10.2 g/dL (Low)"

def emptyWindowSource : Str := sN "text window: " ++ [39, 39]

/-- The status comparator the specification describes: value below the
range is `low`, above it `high`, otherwise `normal`. -/
def specRangeStatus (v : ℚ) (rr : ℚ × ℚ) : String :=
  if v < rr.1 then "low" else if rr.2 < v then "high" else "normal"

def apptDemoText : Str := sN "Book a dentist appointment tomorrow at 3pm"

def apptDemoNow : Nat := Calendar.civilToDay 2024 1 10

section Helpers

lemma dropWhile_all_nil {p : Nat → Bool} : ∀ {l : Str}, l.all p = true → l.dropWhile p = []
  | [], _ => rfl
  | a :: t, h => by
    have h' := List.all_cons .. ▸ h
    simp only [Bool.and_eq_true] at h'
    simp [List.dropWhile_cons, h'.1, dropWhile_all_nil h'.2]

lemma stripN_all_space {s : Str} (h : s.all Py.isSpaceN = true) : Py.stripN s = [] := by
  unfold Py.stripN
  rw [dropWhile_all_nil h]
  rfl

lemma foldl_add_weight (w : String → Nat) :
    ∀ (fs : List String) (b : Nat),
      fs.foldl (fun acc f => acc + w f) b = b + (fs.map w).sum := by
  intro fs
  induction fs with
  | nil => simp
  | cons f t ih =>
    intro b
    simp only [List.foldl_cons, List.map_cons, List.sum_cons, ih]
    omega

lemma lowerC_idem (c : Nat) : Py.lowerC (Py.lowerC c) = Py.lowerC c := by
  unfold Py.lowerC
  split_ifs <;> omega

lemma lowerC_upperC (c : Nat) : Py.lowerC (Py.upperC c) = Py.lowerC c := by
  unfold Py.lowerC Py.upperC
  split_ifs <;> omega

lemma lowerN_titleGo : ∀ (b : Bool) (s : Str), Py.lowerN (Py.titleGo b s) = Py.lowerN s := by
  intro b s
  induction s generalizing b with
  | nil => rfl
  | cons c t ih =>
    show Py.lowerN ((if b then Py.lowerC c else Py.upperC c) :: Py.titleGo (Py.isAlphaN c) t)
      = Py.lowerN (c :: t)
    simp only [Py.lowerN, List.map_cons]
    refine congrArg₂ List.cons ?_ (ih (Py.isAlphaN c))
    cases b
    · exact lowerC_upperC c
    · exact lowerC_idem c

lemma mem_of_mem_stripN {c : Nat} {s : Str} (h : c ∈ Py.stripN s) : c ∈ s := by
  unfold Py.stripN at h
  rw [List.mem_reverse] at h
  have h1 := (List.dropWhile_sublist _).subset h
  rw [List.mem_reverse] at h1
  exact (List.dropWhile_sublist _).subset h1

lemma lowerN_fix_of_mem {s : Str} (h : ∀ c ∈ s, Py.lowerC c = c) : Py.lowerN s = s := by
  have h2 : s.map Py.lowerC = s.map id := List.map_congr_left h
  rw [show Py.lowerN s = s.map Py.lowerC from rfl, h2, List.map_id]

lemma lowerN_stripN_lowerN (s : Str) :
    Py.lowerN (Py.stripN (Py.lowerN s)) = Py.stripN (Py.lowerN s) := by
  apply lowerN_fix_of_mem
  intro c hc
  obtain ⟨d, -, rfl⟩ := List.mem_map.mp (mem_of_mem_stripN hc)
  exact lowerC_idem d

lemma lowerN_titleN_of_strip_lower (s : Str) :
    Py.lowerN (Py.titleN (Py.stripN (Py.lowerN s))) = Py.stripN (Py.lowerN s) := by
  unfold Py.titleN
  rw [lowerN_titleGo, lowerN_stripN_lowerN]

lemma nextDelta_spec (t nowDay : Nat) (ht : t < 7) :
    1 ≤ HM.nextDelta t nowDay ∧ HM.nextDelta t nowDay ≤ 7 ∧
    Calendar.pyWeekday (nowDay + HM.nextDelta t nowDay) = t ∧
    (Calendar.pyWeekday nowDay = t → HM.nextDelta t nowDay = 7) ∧
    (∀ j, 1 ≤ j → j < HM.nextDelta t nowDay → Calendar.pyWeekday (nowDay + j) ≠ t) := by
  unfold HM.nextDelta Calendar.pyWeekday
  by_cases h0 : (t + 7 - (nowDay + 6) % 7) % 7 = 0
  · rw [if_pos h0]
    refine ⟨by omega, by omega, by omega, fun _ => rfl, ?_⟩
    intro j h1 h2
    omega
  · rw [if_neg h0]
    refine ⟨by omega, by omega, by omega, fun hc => by omega, ?_⟩
    intro j h1 h2
    omega

lemma resolveDatePart_next_eq (w : Fin 7) (nowDay : Nat) :
    HM.resolveDatePart (sN "next " ++ HM.wdName w) nowDay =
      .ok (some (nowDay + HM.nextDelta w.val nowDay)) := by
  fin_cases w <;> rfl

end Helpers

/-! ## Claim theorems -/

/-- C1: on whitespace-only input every pipeline short-circuits into its
designated guardrail status (never `ok`); on the exactly-empty input the
health-risk, report and amount pipelines still reach their guardrails, but
the appointment pipeline crashes with a validation error instead of
returning `needs_clarification`, because the text-acquisition slip puts the
tuple `("", 0.0)` into a float field. -/
theorem claim1_blank_input_guardrails :
    (∀ (cont : Str → String) (s : Str), s.all Py.isSpaceN = true → s ≠ [] →
      HM.run_appointment_status cont s = .ok "needs_clarification") ∧
    (∀ cont : Str → String, HM.run_appointment_status cont [] = .error ()) ∧
    (∀ (parse : Str → HM.Answers) (s : Str), s.all Py.isSpaceN = true →
      (HM.run_health_risk_pipeline parse s).status = "incomplete_profile" ∧
      (HM.run_health_risk_pipeline parse s).factors = []) ∧
    (∀ s : Str, s.all Py.isSpaceN = true →
      (HM.run_report_pipeline s).status = "unprocessed") ∧
    (∀ s : Str, s.all Py.isSpaceN = true →
      (HM.run_amount_pipeline s).status = "no_amounts_found") := by
  refine ⟨?_, ?_, ?_, ?_, ?_⟩
  · intro cont s hall hne
    simp [HM.run_appointment_status, HM.extract_text_from_input_text, hne,
      stripN_all_space hall]
  · intro cont
    rfl
  · intro parse s hall
    simp [HM.run_health_risk_pipeline, HM.extract_text_from_input_text,
      stripN_all_space hall]
    exact ⟨by decide, by decide⟩
  · intro s hall
    simp [HM.run_report_pipeline, HM.extract_text_from_input_text, stripN_all_space hall]
  · intro s hall
    simp [HM.run_amount_pipeline, HM.extract_text_from_input_text, stripN_all_space hall]

/-- Witness for C1 at the concrete inputs `" "` and `""`. -/
theorem claim1_blank_input_guardrails_witness :
    HM.run_appointment_status (fun _ => "x") (sN " ") = .ok "needs_clarification" ∧
    HM.run_appointment_status (fun _ => "x") [] = .error () ∧
    (HM.run_health_risk_pipeline (fun _ => []) (sN " ")).status = "incomplete_profile" ∧
    (HM.run_report_pipeline (sN " ")).status = "unprocessed" ∧
    (HM.run_amount_pipeline (sN " ")).status = "no_amounts_found" :=
  ⟨claim1_blank_input_guardrails.1 _ _ (by decide) (by decide),
   claim1_blank_input_guardrails.2.1 _,
   (claim1_blank_input_guardrails.2.2.1 (fun _ => []) _ (by decide)).1,
   claim1_blank_input_guardrails.2.2.2.1 _ (by decide),
   claim1_blank_input_guardrails.2.2.2.2 _ (by decide)⟩

/-- C2 (code bug evidence): for `kind = text`, a whitespace-only input is
truthy, so the adapter returns empty extracted text with confidence 0.95,
not 0.0; and for the empty input the confidence slot is the malformed
tuple `("", 0.0)` (modelled `none`), not the float 0.0. -/
theorem claim2_text_adapter_confidence_bug :
    HM.extract_text_from_input_text (sN " ") = ([], some (mkRat 95 100)) ∧
    mkRat 95 100 ≠ 0 ∧
    HM.extract_text_from_input_text (sN "") = ([], none) := by
  refine ⟨by decide, by decide, by decide⟩

/-- C5 counterexample: on the demo billing text the wired amount pipeline
returns six classified amounts, and their values are not
`[5000, 2000, 3000]` (the token pattern has no comma grouping). -/
theorem claim5_counterexample :
    (HM.run_amount_pipeline amountDemoText).amounts.length = 6 ∧
    ¬ ((HM.run_amount_pipeline amountDemoText).amounts.map HM.LabeledAmount.value =
      [5000, 2000, 3000]) := by
  refine ⟨by decide, by decide⟩

/-- C5 amended: the pipeline returns status `ok`, currency `INR`, and six
classified amounts with values 5, 0, 2, 0, 3, 0 and types `total_bill`,
`total_bill`, `paid`, `total_bill`, `due`, `total_bill` (each
comma-grouped figure splits into its leading digits and a trailing `000`
token). -/
theorem claim5_amended_behaviour :
    (HM.run_amount_pipeline amountDemoText).status = "ok" ∧
    (HM.run_amount_pipeline amountDemoText).currency = "INR" ∧
    (HM.run_amount_pipeline amountDemoText).amounts.map (fun a => (a.type, a.value)) =
      [("total_bill", 5), ("total_bill", 0), ("paid", 2), ("total_bill", 0),
       ("due", 3), ("total_bill", 0)] := by
  refine ⟨by decide, by decide, by decide⟩

/-- C6: the health-risk score of `_compute_risk_score` is base 10 plus the
weights of the listed factors, capped at 100, with weights inside the
claimed ranges; and on the demo answers all four factors are detected, the
score is 100 (≥ 70) and the risk level is `high`. -/
theorem claim6_risk_score_formula_and_example :
    (∀ fs : List String,
      (HM._compute_risk_score fs).score = min (10 + (fs.map HM.riskWeight).sum) 100) ∧
    (30 ≤ HM.riskWeight "smoking" ∧ HM.riskWeight "smoking" ≤ 35) ∧
    HM.riskWeight "poor diet" = 20 ∧
    HM.riskWeight "low exercise" = 20 ∧
    (10 ≤ HM.riskWeight "age 55+" ∧ HM.riskWeight "age 55+" ≤ 15) ∧
    HM._extract_factors healthDemoAnswers =
      ["smoking", "low exercise", "poor diet", "age 55+"] ∧
    (HM._compute_risk_score (HM._extract_factors healthDemoAnswers)).score = 100 ∧
    70 ≤ (HM._compute_risk_score (HM._extract_factors healthDemoAnswers)).score ∧
    (HM._compute_risk_score (HM._extract_factors healthDemoAnswers)).risk_level = "high" := by
  refine ⟨?_, by decide, by decide, by decide, by decide, by decide, by decide, by decide,
    by decide⟩
  intro fs
  exact congrArg (fun x => min x 100) (foldl_add_weight HM.riskWeight fs 10)

/-- C7: the health-risk pipeline returns `incomplete_profile` with an empty
factor list exactly when more than half (3 or more) of the four expected
fields are missing from the parsed answers; with 2 or fewer missing it
terminates with status `ok`. -/
theorem claim7_incomplete_profile_iff :
    ∀ answers : HM.Answers,
      (((HM.run_health_from_answers answers).status = "incomplete_profile" ∧
        (HM.run_health_from_answers answers).factors = []) ↔
        3 ≤ (HM.missingFields answers).length) ∧
      ((HM.missingFields answers).length ≤ 2 →
        (HM.run_health_from_answers answers).status = "ok") := by
  intro answers
  by_cases h : 2 < (HM.missingFields answers).length
  · simp only [HM.run_health_from_answers, if_pos h]
    exact ⟨⟨fun _ => by omega, fun _ => ⟨trivial, trivial⟩⟩, fun h2 => absurd h2 (by omega)⟩
  · simp only [HM.run_health_from_answers, if_neg h]
    exact ⟨⟨fun hc => absurd hc.1 (by decide), fun h3 => absurd h3 (by omega)⟩, fun _ => trivial⟩

/-- Witness for C7: two missing fields give `ok`, four give the guardrail. -/
theorem claim7_incomplete_profile_iff_witness :
    (HM.run_health_from_answers [("age", HM.PyVal.vInt 60), ("smoker", HM.PyVal.vBool true)]).status
      = "ok" ∧
    ((HM.run_health_from_answers []).status = "incomplete_profile" ∧
      (HM.run_health_from_answers []).factors = []) :=
  ⟨(claim7_incomplete_profile_iff
      [("age", HM.PyVal.vInt 60), ("smoker", HM.PyVal.vBool true)]).2 (by decide),
   ((claim7_incomplete_profile_iff []).1).mpr (by decide)⟩

/-- C10: amount classification returns one labelled item per input amount,
in order (the value projection of the output is the input list); a value
whose canonical string does not occur in the raw text is labelled through
an empty context window: type `unknown`, source `text window: ''`, and it
is still present in the output. -/
theorem claim10_classify_amounts_shape :
    ∀ (raw : Str) (amounts : List ℚ),
      ((HM.classify_amounts raw amounts).map HM.LabeledAmount.value = amounts) ∧
      (∀ v ∈ amounts, HM.labelOne raw v ∈ HM.classify_amounts raw amounts) ∧
      (∀ v ∈ amounts, Py.findN raw (HM.pyFloatCanonical v) = none →
        HM.labelOne raw v = { type := "unknown", value := v, source := emptyWindowSource }) := by
  intro raw amounts
  refine ⟨?_, ?_, ?_⟩
  · have hcomp : (HM.LabeledAmount.value ∘ HM.labelOne raw) = id := funext fun v => rfl
    rw [HM.classify_amounts, List.map_map, hcomp, List.map_id]
  · intro v hv
    exact List.mem_map_of_mem (HM.labelOne raw) hv
  · intro v _ hfind
    simp only [HM.labelOne, hfind]
    rfl

/-- Witness for C10: the canonical string `5` does not occur in `abc`. -/
theorem claim10_classify_amounts_shape_witness :
    ((HM.classify_amounts (sN "abc") [(5 : ℚ)]).map HM.LabeledAmount.value = [(5 : ℚ)]) ∧
    HM.labelOne (sN "abc") 5 =
      { type := "unknown", value := 5, source := emptyWindowSource } :=
  ⟨(claim10_classify_amounts_shape (sN "abc") [5]).1,
   (claim10_classify_amounts_shape (sN "abc") [5]).2.2 5 (by decide) (by decide)⟩

/-- C3 counterexample: with the current date 2024-01-10 (a Wednesday,
`weekday = 2`), the appointment pipeline resolves the demo request to
status `ok`, date `2024-01-11` and time `15:00`, but the department is
`Dentist` (the matched keyword capitalised), not `Dentistry`. -/
theorem claim3_counterexample :
    Calendar.pyWeekday apptDemoNow = 2 ∧
    HM.process_appointment_request apptDemoText apptDemoNow =
      .ok { status := "ok", department := some (sN "Dentist"),
            date := some (sN "2024-01-11"), time := some (sN "15:00") } ∧
    sN "Dentist" ≠ sN "Dentistry" := by
  refine ⟨by decide, by decide, by decide⟩

/-- C3 amended: same input and current date, status `ok` with department
`Dentist`, date `2024-01-11` and time `15:00`. -/
theorem claim3_amended_behaviour :
    Calendar.pyWeekday apptDemoNow = 2 ∧
    HM.process_appointment_request apptDemoText apptDemoNow =
      .ok { status := "ok", department := some (sN "Dentist"),
            date := some (sN "2024-01-11"), time := some (sN "15:00") } := by
  refine ⟨by decide, by decide⟩

/-- C4: for every current day and weekday `W`, resolving `next W` adds an
offset `k` with `1 ≤ k ≤ 7`, landing on weekday `W`; when today already is
`W` the offset is exactly 7; no earlier strictly-future day has weekday
`W`; in particular the result is never the current date. -/
theorem claim4_next_weekday_strictly_future :
    ∀ (nowDay : Nat) (w : Fin 7), ∃ k,
      HM.resolveDatePart (sN "next " ++ HM.wdName w) nowDay = .ok (some (nowDay + k)) ∧
      1 ≤ k ∧ k ≤ 7 ∧
      Calendar.pyWeekday (nowDay + k) = w.val ∧
      (Calendar.pyWeekday nowDay = w.val → k = 7) ∧
      (∀ j, 1 ≤ j → j < k → Calendar.pyWeekday (nowDay + j) ≠ w.val) := by
  intro nowDay w
  obtain ⟨h1, h2, h3, h4, h5⟩ := nextDelta_spec w.val nowDay w.isLt
  exact ⟨HM.nextDelta w.val nowDay, resolveDatePart_next_eq w nowDay, h1, h2, h3, h4, h5⟩

/-- Witness for C4: 2024-01-08 was a Monday, and `next monday` resolves to
exactly seven days later. -/
theorem claim4_next_weekday_strictly_future_witness :
    HM.resolveDatePart (sN "next " ++ HM.wdName ⟨0, by omega⟩) (Calendar.civilToDay 2024 1 8) =
      .ok (some (Calendar.civilToDay 2024 1 8 + 7)) := by
  obtain ⟨k, hk, -, -, -, hsame, -⟩ :=
    claim4_next_weekday_strictly_future (Calendar.civilToDay 2024 1 8) ⟨0, by omega⟩
  rw [hsame (by decide)] at hk
  exact hk

/-- C9: a test normalised by `normalize_test_line` always carries a
reference range, and its status is exactly the range comparison of its
value; on the demo line the pipeline produces the claimed Hemoglobin test
and a `Low hemoglobin` explanation. -/
theorem claim9_status_by_range_comparison :
    (∀ (line : Str) (t : HM.TestN), HM.normalize_test_line line = some t →
      ∃ rr, t.ref_range = some rr ∧ t.status = specRangeStatus t.value rr) ∧
    (HM.run_report_pipeline reportDemoLine).tests =
      [{ name := "Hemoglobin", value := mkRat 51 5, unit := "g/dL", status := "low",
         ref_range := some ((12 : ℚ), (15 : ℚ)) }] ∧
    (HM.run_report_pipeline reportDemoLine).explanations =
      ["Low hemoglobin may relate to anemia or blood loss; discuss with your doctor."] ∧
    Py.containsN
      (sN "Low hemoglobin may relate to anemia or blood loss; discuss with your doctor.")
      (sN "Low hemoglobin") = true := by
  refine ⟨?_, by decide, by decide, by decide⟩
  intro line t h
  simp only [HM.normalize_test_line] at h
  repeat' split at h
  all_goals try exact Option.noConfusion h
  all_goals injection h with h'
  all_goals subst h'
  all_goals first
    | exact ⟨((12 : ℚ), (15 : ℚ)), rfl, by
        unfold specRangeStatus; dsimp only; split_ifs <;> first | rfl | linarith⟩
    | exact ⟨((4000 : ℚ), (11000 : ℚ)), rfl, by
        unfold specRangeStatus; dsimp only; split_ifs <;> first | rfl | linarith⟩

/-- Witness for C9 at the line `Hemoglobin 16 g/dL`. -/
theorem claim9_status_by_range_comparison_witness :
    ∃ rr,
      ({ name := "Hemoglobin", value := (16 : ℚ), unit := "g/dL", status := "high",
         ref_range := some ((12 : ℚ), (15 : ℚ)) } : HM.TestN).ref_range = some rr ∧
      ({ name := "Hemoglobin", value := (16 : ℚ), unit := "g/dL", status := "high",
         ref_range := some ((12 : ℚ), (15 : ℚ)) } : HM.TestN).status =
        specRangeStatus (16 : ℚ) rr :=
  claim9_status_by_range_comparison.1 (sN "Hemoglobin 16 g/dL") _ (by decide)

/-- C8 counterexample: the line `Glucose 90 mg/dL` passes the digit+unit
heuristic, its name is not a recognised test, and it is **not** dropped —
the pipeline returns status `ok` with a normalised `Glucose` test (without
a reference range). -/
theorem claim8_counterexample :
    HM.process_report_request (sN "Glucose 90 mg/dL") =
      { status := "ok",
        tests := [{ name := sN "Glucose", value := 90, unit := sN "mg/dL",
                    status := "unknown", ref_range := none }] } ∧
    sN "Glucose" ≠ sN "Hemoglobin" ∧ sN "Glucose" ≠ sN "WBC" := by
  refine ⟨by decide, by decide, by decide⟩

/-- C8 amended: every extracted test line contains a digit and a
recognised unit token; every normalised test originates from such a line;
but a test line with an unrecognised name is not dropped — it yields a
normalised test, which then carries no reference range. -/
theorem claim8_amended_test_line_heuristic :
    ∀ text : Str,
      (∀ line ∈ HM._extract_tests text,
        line.any Py.isDigitN = true ∧
        HM.reportUnitTokens.any (fun u => Py.containsN (Py.lowerN line) u) = true) ∧
      (∀ t ∈ (HM.process_report_request text).tests,
        ∃ line ∈ HM._extract_tests text, HM._parse_test_line line = some t) ∧
      (∀ t ∈ (HM.process_report_request text).tests,
        t.name ≠ sN "Hemoglobin" → t.name ≠ sN "WBC" → t.ref_range = none) := by
  intro text
  have hprov : ∀ t ∈ (HM.process_report_request text).tests,
      ∃ line ∈ HM._extract_tests text, HM._parse_test_line line = some t := by
    intro t ht
    simp only [HM.process_report_request] at ht
    repeat' split at ht
    · exact absurd ht (List.not_mem_nil t)
    · exact absurd ht (List.not_mem_nil t)
    · obtain ⟨line, hl, hp⟩ := List.mem_filterMap.mp ht
      exact ⟨line, hl, hp⟩
  refine ⟨?_, hprov, ?_⟩
  · intro line hl
    simp only [HM._extract_tests, List.mem_filterMap] at hl
    obtain ⟨l0, -, hf⟩ := hl
    repeat' split at hf
    · exact Option.noConfusion hf
    · next hcond =>
      injection hf with hf'
      subst hf'
      exact And.imp_right (fun x => x) (Bool.and_eq_true .. ▸ hcond)
    · exact Option.noConfusion hf
  · intro t ht hn1 hn2
    obtain ⟨line, -, hp⟩ := hprov t ht
    simp only [HM._parse_test_line] at hp
    repeat' split at hp
    · exact Option.noConfusion hp
    · exact Option.noConfusion hp
    · injection hp with hp'
      subst hp'
      simp only [HM._normalize_test_name] at hn1 hn2 ⊢
      set nm := Py.stripN (Py.lowerN (Py.stripN (HM.takeNameRun line))) with hnmdef
      by_cases hhemo : Py.containsN nm (sN "hemo") = true
      · rw [if_pos hhemo] at hn1
        exact absurd rfl hn1
      · rw [if_neg hhemo] at hn1 hn2 ⊢
        by_cases hwbc : (Py.containsN nm (sN "wbc") || Py.containsN nm (sN "white blood")) = true
        · rw [if_pos hwbc] at hn2
          exact absurd rfl hn2
        · rw [if_neg hwbc] at hn1 hn2 ⊢
          rw [hnmdef, lowerN_titleN_of_strip_lower]
          unfold HM.refRangesGet
          split
          · next hkey =>
            rw [hnmdef.trans hkey] at hhemo
            exact absurd (by decide) hhemo
          · split
            · next hkey =>
              rw [hnmdef.trans hkey] at hwbc
              exact absurd (by decide) hwbc
            · rfl

/-- Witness for C8 at the single-line text `Glucose 90 mg/dL`. -/
theorem claim8_amended_test_line_heuristic_witness :
    ((sN "Glucose 90 mg/dL").any Py.isDigitN = true ∧
      HM.reportUnitTokens.any
        (fun u => Py.containsN (Py.lowerN (sN "Glucose 90 mg/dL")) u) = true) ∧
    (∃ line ∈ HM._extract_tests (sN "Glucose 90 mg/dL"),
      HM._parse_test_line line =
        some { name := sN "Glucose", value := 90, unit := sN "mg/dL",
               status := "unknown", ref_range := none }) ∧
    ({ name := sN "Glucose", value := (90 : ℚ), unit := sN "mg/dL",
       status := "unknown", ref_range := none } : HM.TestP).ref_range = none :=
  ⟨(claim8_amended_test_line_heuristic (sN "Glucose 90 mg/dL")).1
      (sN "Glucose 90 mg/dL") (by decide),
   (claim8_amended_test_line_heuristic (sN "Glucose 90 mg/dL")).2.1 _ (by decide),
   (claim8_amended_test_line_heuristic (sN "Glucose 90 mg/dL")).2.2 _ (by decide)
      (by decide) (by decide)⟩

